import Mathlib

/-!
Shallow embedding of the request-orchestration core of strudel.scraper
(src/stscraper/base.py, src/stscraper/github.py, src/stscraper/gitlab.py).

Machine ints are modelled as Int / Nat (Python ints are unbounded, so no
wrap-around is needed).  Python exceptions are modelled as an explicit
error type; generator functions are modelled as functions returning the
full list of yielded items together with the terminal event.
-/

namespace Strudel

/-- Exceptions that the embedded code can raise.  Each constructor is one
distinct exception raised somewhere in base.py / github.py / gitlab.py
(or a built-in Python exception reachable from that code). -/
inductive Exn where
  /-- RepoDoesNotExist, base.py 393-396 -/
  | repoDoesNotExist (status : Nat)
  /-- TokenNotReady, raised by APIToken call / update of limits -/
  | tokenNotReady
  /-- requests.exceptions.RequestException re-raised after too many network failures -/
  | requestException
  /-- requests.exceptions.Timeout with message "VCS is down", base.py 400 -/
  | timeoutVCSDown
  /-- requests.exceptions.Timeout with the "Are you abusing the API?" message, base.py 406-408 -/
  | timeoutAbuse
  /-- requests.HTTPError raised by Response.raise_for_status for a 4xx/5xx status -/
  | httpError (status : Nat)
  /-- VCSError "API did not return any data", github.py 455-457 -/
  | vcsNoData
  /-- VCSError "Invalid object path", github.py 462-464 -/
  | vcsInvalidObjectPath
  /-- EnvironmentError "Unexpected result format", github.py 474-477 -/
  | environmentError
  /-- Python TypeError -/
  | typeError
  /-- Python ValueError (for example min() of an empty sequence) -/
  | valueError
  /-- Python AttributeError -/
  | attributeError
  /-- Python IndexError (raised by json_path with raise_on_missing) -/
  | indexError
  /-- Python KeyError (missing dict key on direct indexing) -/
  | keyError
  deriving DecidableEq, Repr

/-- Parsed JSON values, as produced by response.json(). -/
inductive J where
  | null
  | b (v : Bool)
  | i (v : Int)
  | s (v : String)
  | arr (items : List J)
  | obj (fields : List (String × J))

/-- Python str() of a parsed-JSON value; exact on scalars (the only use in
the sources is on scalar fields via the comma branch of json_path).
Composite values get a fixed marker, standing in for the Python repr. -/
def pyStr : J → String
  | .null => "None"
  | .b true => "True"
  | .b false => "False"
  | .i v => toString v
  | .s v => v
  | .arr _ => "[...]"
  | .obj _ => "\x7b...\x7d"

/-- Python truthiness of a parsed-JSON value (`not res` in base.py 358). -/
def pyFalsy : J → Bool
  | .null => true
  | .b v => !v
  | .i v => v == 0
  | .s v => v == ""
  | .arr l => l.isEmpty
  | .obj l => l.isEmpty

/-- Python iteration over a parsed-JSON value (`for item in res`):
lists yield their items, dicts their keys, strings their characters,
scalars raise TypeError. -/
def pyIter : J → Except Exn (List J)
  | .arr l => .ok l
  | .obj fs => .ok (fs.map (fun p => .s p.1))
  | .s v => .ok (v.toList.map (fun ch => .s (String.singleton ch)))
  | _ => .error .typeError

/-- Dict lookup (first binding wins; Python dicts have unique keys).
Key comparison is on the character lists so that it reduces inside the
kernel. -/
def jLookup (fields : List (String × J)) (k : String) : Option J :=
  (fields.find? (fun p => p.1.data == k.data)).map (fun p => p.2)

/-- Python str.split with a single-character separator: empty chunks
are kept, and the empty string yields one empty chunk. -/
def splitOnChar (sep : Char) : List Char → List (List Char)
  | [] => [[]]
  | c :: rest =>
    if c == sep then [] :: splitOnChar sep rest
    else
      match splitOnChar sep rest with
      | [] => [[c]]
      | g :: gs => (c :: g) :: gs

/-- Python str.strip(): drop whitespace from both ends. -/
def pyStrip (s : List Char) : List Char :=
  ((s.dropWhile Char.isWhitespace).reverse.dropWhile Char.isWhitespace).reverse

/-- Python substring containment (`needle in hay` for strings). -/
def containsSub (hay needle : List Char) : Bool :=
  match hay with
  | [] => needle.isEmpty
  | _ :: rest => needle.isPrefixOf hay || containsSub rest needle

/-- Python substring containment on strings. -/
def strContains (hay needle : String) : Bool :=
  containsSub hay.data needle.data

/-- json_path from base.py 74-99.  Walks `path` through nested dicts;
on a missing key it raises IndexError when raise_on_missing is set and
returns None otherwise.  A chunk starting with a comma joins the str()
of the given field of every element of a list (last-chunk only, as in
the source).  Non-dict intermediate values reproduce the Python
behaviour of the `chunk not in obj` / `obj[chunk]` expressions. -/
def json_path (raiseOnMissing : Bool) : J → List String → Except Exn J
  | ob, [] => .ok ob
  | ob, chunk :: rest =>
    if [','].isPrefixOf chunk.data then
      match ob with
      | .arr items =>
        if items.all (fun it => match it with | .obj _ => true | _ => false) then
          .ok (.s (String.intercalate "," (items.map (fun it =>
            match it with
            | .obj fs => pyStr ((jLookup fs (String.mk (chunk.data.drop 1))).getD .null)
            | _ => ""))))
        else .error .attributeError
      | .obj _ => .error .attributeError
      | .s _ => .error .attributeError
      | _ => .error .typeError
    else
      match ob with
      | .null => if raiseOnMissing then .error .indexError else .ok .null
      | .obj fields =>
        match jLookup fields chunk with
        | some v => json_path raiseOnMissing v rest
        | none => if raiseOnMissing then .error .indexError else .ok .null
      | .arr items =>
        if items.any (fun it =>
          match it with | .s v => v.data == chunk.data | _ => false)
        then .error .typeError
        else if raiseOnMissing then .error .indexError else .ok .null
      | .s v =>
        if strContains v chunk then .error .typeError
        else if raiseOnMissing then .error .indexError else .ok .null
      | _ => .error .typeError

/-- One raw HTTP response, as far as the orchestration core reads it:
the status code, the parsed body, and the Link header (used by the
GitHub next-page check). -/
structure Response where
  status : Nat
  body : J
  link : String := ""

/-- Outcome of one `token(url, ...)` call inside the retry loop of
VCSAPI._request: the token raised TokenNotReady before issuing the HTTP
call, or the HTTP call failed at the network level
(requests.RequestException), or a response came back.  A script of
outcomes stands for the behaviour of the token pool plus provider over
successive attempts of one logical call. -/
inductive Outcome where
  | tokenNotReady
  | connectionError
  | response (r : Response)

/-- The per-provider classification data of VCSAPI (base.py 264-268)
and its overrides in github.py / gitlab.py. -/
structure ProviderCfg where
  status_too_many_requests : List Nat
  status_not_found : List Nat
  status_empty : List Nat
  status_internal_error : List Nat
  retries_on_timeout : Nat
  deriving DecidableEq, Repr

/-- VCSAPI defaults (base.py 264-268). -/
def baseCfg : ProviderCfg :=
  { status_too_many_requests := []
    status_not_found := [404, 451]
    status_empty := [409]
    status_internal_error := [500, 502, 503]
    retries_on_timeout := 5 }

/-- GitHubAPI: status_too_many_requests = (403,) (github.py 115). -/
def githubCfg : ProviderCfg :=
  { baseCfg with status_too_many_requests := [403] }

/-- GitLabAPI: status_not_found = (404, 422, 451) (gitlab.py 78). -/
def gitlabCfg : ProviderCfg :=
  { baseCfg with status_not_found := [404, 422, 451] }

/-- Result of VCSAPI._request on a script of attempt outcomes: the
response it returns together with the unconsumed script, or the
exception it raises; `pending` means the script ended while the loop
was still asking for another token (the model boundary for the
infinite token generator).  `slept` is the total seconds passed to
time.sleep, `attempts` the number of HTTP calls actually issued
(TokenNotReady is raised before the HTTP call, so it does not count). -/
inductive ReqResult where
  | success (r : Response) (rest : List Outcome) (slept : Nat) (attempts : Nat)
  | failure (e : Exn) (slept : Nat) (attempts : Nat)
  | pending (slept : Nat) (attempts : Nat)

/-- Add the cost (sleep seconds, HTTP attempts) of one loop iteration. -/
def ReqResult.addCost (s a : Nat) : ReqResult → ReqResult
  | .success r rest s0 a0 => .success r rest (s + s0) (a + a0)
  | .failure e s0 a0 => .failure e (s + s0) (a + a0)
  | .pending s0 a0 => .pending (s + s0) (a + a0)

/-- The retry loop of VCSAPI._request (base.py 377-413), with the
timeout counter as explicit state.  Branches, in source order:
TokenNotReady continues; RequestException bumps the counter and
re-raises past the bound; not-found raises RepoDoesNotExist at once;
5xx (the configured subset) bumps the counter, fails with the
"VCS is down" Timeout past the bound, else sleeps 2^counter; too-many-
requests bumps the counter, fails with the abuse Timeout past the
bound, else sleeps 2^(counter+1) via the shift in base.py 409; finally
raise_for_status raises for any remaining 4xx/5xx, and anything else
is returned. -/
def requestAttempts (cfg : ProviderCfg) : List Outcome → Nat → ReqResult
  | [], _ => .pending 0 0
  | .tokenNotReady :: rest, tc => requestAttempts cfg rest tc
  | .connectionError :: rest, tc =>
    if tc + 1 > cfg.retries_on_timeout then .failure .requestException 0 1
    else (requestAttempts cfg rest (tc + 1)).addCost 0 1
  | .response r :: rest, tc =>
    if r.status ∈ cfg.status_not_found then
      .failure (.repoDoesNotExist r.status) 0 1
    else if r.status ∈ cfg.status_internal_error then
      if tc + 1 > cfg.retries_on_timeout then .failure .timeoutVCSDown 0 1
      else (requestAttempts cfg rest (tc + 1)).addCost (2 ^ (tc + 1)) 1
    else if r.status ∈ cfg.status_too_many_requests then
      if tc + 1 > cfg.retries_on_timeout then .failure .timeoutAbuse 0 1
      else (requestAttempts cfg rest (tc + 1)).addCost (2 ^ (tc + 2)) 1
    else if 400 ≤ r.status ∧ r.status < 600 then
      .failure (.httpError r.status) 0 1
    else
      .success r rest 0 1

/-- On success the returned unconsumed script is strictly shorter than
the input script (each loop iteration consumes one outcome). -/
theorem requestAttempts_success_length (cfg : ProviderCfg) :
    ∀ (script : List Outcome) (tc : Nat) (r : Response) (rest : List Outcome)
      (s a : Nat),
      requestAttempts cfg script tc = .success r rest s a →
      rest.length < script.length := by
  intro script
  induction script with
  | nil => intro tc r rest s a h; simp [requestAttempts] at h
  | cons o tail ih =>
    intro tc r rest s a h
    match o with
    | .tokenNotReady =>
      simp only [requestAttempts] at h
      exact Nat.lt_succ_of_lt (ih tc r rest s a h)
    | .connectionError =>
      simp only [requestAttempts] at h
      split at h
      · exact absurd h (by simp [ReqResult.addCost])
      · rcases heq : requestAttempts cfg tail (tc + 1) with r' | e' | p'
        all_goals rw [heq] at h
        all_goals simp [ReqResult.addCost] at h
        obtain ⟨hr, hrest, -, -⟩ := h
        subst hrest
        exact Nat.lt_succ_of_lt (ih (tc + 1) _ _ _ _ heq)
    | .response resp =>
      simp only [requestAttempts] at h
      split at h
      · simp [ReqResult.addCost] at h
      split at h
      · split at h
        · simp [ReqResult.addCost] at h
        · rcases heq : requestAttempts cfg tail (tc + 1) with r' | e' | p'
          all_goals rw [heq] at h
          all_goals simp [ReqResult.addCost] at h
          obtain ⟨hr, hrest, -, -⟩ := h
          subst hrest
          exact Nat.lt_succ_of_lt (ih (tc + 1) _ _ _ _ heq)
      split at h
      · split at h
        · simp [ReqResult.addCost] at h
        · rcases heq : requestAttempts cfg tail (tc + 1) with r' | e' | p'
          all_goals rw [heq] at h
          all_goals simp [ReqResult.addCost] at h
          obtain ⟨hr, hrest, -, -⟩ := h
          subst hrest
          exact Nat.lt_succ_of_lt (ih (tc + 1) _ _ _ _ heq)
      split at h
      · simp at h
      · simp only [ReqResult.success.injEq] at h
        obtain ⟨-, hrest, -, -⟩ := h
        subst hrest
        exact Nat.lt_succ_self _

/-- Pagination parameters; init_pagination (base.py 292-297) returns
page 1 with page size 100. -/
structure PageParams where
  page : Nat
  per_page : Nat
  deriving DecidableEq, Repr

/-- base.py 297: starting parameters for offset pagination. -/
def init_pagination : PageParams := { page := 1, per_page := 100 }

/-- Terminal event of the request generator: it finished normally,
raised an exception, or the outcome script ran out mid-loop. -/
inductive GenResult where
  | done
  | failed (e : Exn)
  | pending

/-- Full run of the VCSAPI.request generator: the items yielded in
order, the terminal event, the total seconds slept, the total HTTP
attempts, the number of _request calls, and the pagination parameters
sent with each _request call. -/
structure GenOut where
  result : GenResult
  items : List J
  slept : Nat
  attempts : Nat
  calls : Nat
  pages : List PageParams

/-- The paginated loop of VCSAPI.request (base.py 349-362), with the
provider next-page predicate (reading the Link header) passed in.
Each iteration runs _request, returns on an empty-status response,
yields every item of the parsed body, stops when the body is falsy or
there is no next page, and otherwise bumps the page parameter.
Structural recursion on a fuel bound; by
requestAttempts_success_length each iteration strictly shrinks the
script, so fuel = script.length + 1 (as supplied by requestPaginated)
never reaches the zero-fuel case. -/
def requestPaginatedF (cfg : ProviderCfg) (hasNextPage : String → Bool) :
    Nat → List Outcome → PageParams → GenOut
  | 0, _, pp =>
    { result := .pending, items := [], slept := 0, attempts := 0,
      calls := 0, pages := [pp] }
  | fuel + 1, script, pp =>
    match requestAttempts cfg script 0 with
    | .pending s a =>
      { result := .pending, items := [], slept := s, attempts := a,
        calls := 1, pages := [pp] }
    | .failure e s a =>
      { result := .failed e, items := [], slept := s, attempts := a,
        calls := 1, pages := [pp] }
    | .success r rest s a =>
      if r.status ∈ cfg.status_empty then
        { result := .done, items := [], slept := s, attempts := a,
          calls := 1, pages := [pp] }
      else
        match pyIter r.body with
        | .error e =>
          { result := .failed e, items := [], slept := s, attempts := a,
            calls := 1, pages := [pp] }
        | .ok its =>
          if pyFalsy r.body || !hasNextPage r.link then
            { result := .done, items := its, slept := s, attempts := a,
              calls := 1, pages := [pp] }
          else
            let cont := requestPaginatedF cfg hasNextPage fuel rest
              { pp with page := pp.page + 1 }
            { result := cont.result, items := its ++ cont.items,
              slept := s + cont.slept, attempts := a + cont.attempts,
              calls := 1 + cont.calls, pages := pp :: cont.pages }

/-- The paginated VCSAPI.request loop on a full outcome script. -/
def requestPaginated (cfg : ProviderCfg) (hasNextPage : String → Bool)
    (script : List Outcome) (pp : PageParams) : GenOut :=
  requestPaginatedF cfg hasNextPage (script.length + 1) script pp

/-- The fuel bound is irrelevant once it exceeds the script length:
every sufficient fuel computes the same run as the wrapper, so the
fuel is a pure termination device, not part of the semantics. -/
theorem requestPaginatedF_fuel (cfg : ProviderCfg) (f : String → Bool) :
    ∀ (n : Nat) (script : List Outcome) (pp : PageParams),
      script.length < n →
      requestPaginatedF cfg f n script pp = requestPaginated cfg f script pp := by
  intro n
  induction n using Nat.strong_induction_on with
  | _ n ih =>
    intro script pp hlen
    rcases n with _ | n
    · exact absurd hlen (Nat.not_lt_zero _)
    · rw [requestPaginated]
      rw [requestPaginatedF, requestPaginatedF]
      rcases h : requestAttempts cfg script 0 with ⟨r, rest, s, a⟩ | ⟨e, s, a⟩ | ⟨s, a⟩ <;>
        simp only [h]
      have hrest : rest.length < script.length :=
        requestAttempts_success_length cfg script 0 r rest s a h
      have e1 : requestPaginatedF cfg f n rest =
          requestPaginatedF cfg f script.length rest := by
        funext pp2
        rw [ih n (Nat.lt_succ_self n) rest pp2 (by omega),
          ih script.length hlen rest pp2 hrest]
      rw [e1]

/-- The non-paginated branch of VCSAPI.request (base.py 349-365):
one _request, the empty-status check, then a single yield of the
parsed body. -/
def requestOnce (cfg : ProviderCfg) (script : List Outcome) : GenOut :=
  match requestAttempts cfg script 0 with
  | .pending s a =>
    { result := .pending, items := [], slept := s, attempts := a,
      calls := 1, pages := [] }
  | .failure e s a =>
    { result := .failed e, items := [], slept := s, attempts := a,
      calls := 1, pages := [] }
  | .success r _ s a =>
    if r.status ∈ cfg.status_empty then
      { result := .done, items := [], slept := s, attempts := a,
        calls := 1, pages := [] }
    else
      { result := .done, items := [r.body], slept := s, attempts := a,
        calls := 1, pages := [] }

/-- VCSAPI.request (base.py 334-365): with paginate the params are
seeded from init_pagination and the paginated loop runs, otherwise a
single result is yielded. -/
def request (cfg : ProviderCfg) (hasNextPage : String → Bool)
    (paginate : Bool) (script : List Outcome) : GenOut :=
  if paginate then requestPaginated cfg hasNextPage script init_pagination
  else requestOnce cfg script

/-- GitHubAPI._has_next_page (github.py 143-147): scan the comma-
separated relations of the Link header for one whose part after the
last semicolon trims to the literal next relation. -/
def github_has_next_page (link : String) : Bool :=
  (splitOnChar ',' link.data).any (fun rel =>
    pyStrip ((splitOnChar ';' rel).getLastD rel) == "rel=\"next\"".data)

/-- One rate-limit window of a token, per API class.  Fields are
nullable: None until first observed (APIToken init, base.py 162-166),
and the reset value may come back null from a forced refresh. -/
structure Window where
  remaining : Option Int := none
  reset : Option Int := none
  limit : Option Int := none
  deriving DecidableEq, Repr

/-- The two GitHub limit classes (GitHubAPIToken.api_classes). -/
structure GHLimits where
  core : Window := {}
  search : Window := {}
  deriving DecidableEq, Repr

/-- GitHubAPIToken.api_class (github.py 79-81). -/
def api_class (url : String) : String :=
  if "search".data.isPrefixOf url.data then "search" else "core"

/-- limits[key] for the GitHub token (key is always core or search). -/
def GHLimits.get (l : GHLimits) (key : String) : Window :=
  if key.data == "search".data then l.search else l.core

/-- limits[key] = w for the GitHub token. -/
def GHLimits.set (l : GHLimits) (key : String) (w : Window) : GHLimits :=
  if key.data == "search".data then { l with search := w } else { l with core := w }

/-- GitHubAPIToken.when (github.py 89-93): 0 while the recorded
remaining count differs from 0 (a null remaining also differs from 0
in Python), otherwise the recorded reset value (itself possibly
null).  The same code appears verbatim in GitLabAPIToken.when
(gitlab.py 52-56). -/
def GHLimits.when (l : GHLimits) (url : String) : Option Int :=
  if (l.get (api_class url)).remaining = some 0 then
    (l.get (api_class url)).reset
  else some 0

/-- APIToken.ready (base.py 213-216) applied to a when value:
`not t or t <= time.time()`, where a null t is truthy-negated to True
and t == 0 is likewise falsy.  now is the machine clock (a unix
timestamp, hence a natural number). -/
def pyReady (t : Option Int) (now : Nat) : Bool :=
  match t with
  | none => true
  | some v => v == 0 || decide (v ≤ (now : Int))

/-- APIToken.ready for a GitHub token: ready composed with when. -/
def GHLimits.ready (l : GHLimits) (url : String) (now : Nat) : Bool :=
  pyReady (l.when url) now

/-- The rate-limit response headers as far as _update_limits reads
them; a None field means the header is absent. -/
structure RateHeaders where
  remaining : Option Int := none
  reset : Option Int := none
  limit : Option Int := none
  deriving DecidableEq, Repr

/-- GitHubAPIToken._update_limits (github.py 95-105): when the
remaining header is present, overwrite the window of the request class
from the headers, then raise TokenNotReady if the response status is
403 and the remaining count is 0.  Missing reset or limit headers
alongside a present remaining header would raise KeyError.  Returns
the updated limits and whether TokenNotReady is raised (the update
itself persists even when it is). -/
def github_update_limits (l : GHLimits) (status : Nat) (h : RateHeaders)
    (url : String) : Except Exn (GHLimits × Bool) :=
  match h.remaining with
  | none => .ok (l, false)
  | some remaining =>
    match h.reset, h.limit with
    | some reset, some lim =>
      .ok (l.set (api_class url)
            { remaining := some remaining, reset := some reset,
              limit := some lim },
          status == 403 && remaining == 0)
    | _, _ => .error .keyError

/-- GitLabAPIToken._update_limits (gitlab.py 58-68): identical to the
GitHub version except that the throttling status is 429 and there is a
single (core) limit class. -/
def gitlab_update_limits (w : Window) (status : Nat) (h : RateHeaders) :
    Except Exn (Window × Bool) :=
  match h.remaining with
  | none => .ok (w, false)
  | some remaining =>
    match h.reset, h.limit with
    | some reset, some lim =>
      .ok ({ remaining := some remaining, reset := some reset,
             limit := some lim },
          status == 429 && remaining == 0)
    | _, _ => .error .keyError

/-- Full run of the GitHubAPIv4.v4 generator: items yielded, terminal
event, costs, number of _request calls, and the cursor variable sent
with each call (None on the first call unless the caller seeded it). -/
structure V4Out where
  result : GenResult
  items : List J
  slept : Nat
  attempts : Nat
  calls : Nat
  cursors : List (Option J)

/-- The loop of GitHubAPIv4.v4 (github.py 447-484).  Each iteration
posts to graphql via _request; an empty-status response ends the
stream; a body with errors or without data raises VCSError; the object
path is resolved with raise_on_missing, an IndexError becoming the
fatal invalid-object-path VCSError; a missing pageInfo object means a
single-object result which is yielded whole; nodes (or legacy edges)
are yielded one by one; a falsy hasNextPage ends the stream, otherwise
the next request carries endCursor as its cursor variable.
Structural recursion on a fuel bound; by
requestAttempts_success_length each iteration strictly shrinks the
script, so fuel = script.length + 1 (as supplied by v4Loop) never
reaches the zero-fuel case. -/
def v4LoopF (cfg : ProviderCfg) (objectPath : List String) :
    Nat → List Outcome → Option J → V4Out
  | 0, _, cursor =>
    { result := .pending, items := [], slept := 0, attempts := 0,
      calls := 0, cursors := [cursor] }
  | fuel + 1, script, cursor =>
    match requestAttempts cfg script 0 with
    | .pending s a =>
      { result := .pending, items := [], slept := s, attempts := a,
        calls := 1, cursors := [cursor] }
    | .failure e s a =>
      { result := .failed e, items := [], slept := s, attempts := a,
        calls := 1, cursors := [cursor] }
    | .success r rest s a =>
      let halt : GenResult → List J → V4Out := fun res its =>
        { result := res, items := its, slept := s, attempts := a,
          calls := 1, cursors := [cursor] }
      if r.status ∈ cfg.status_empty then halt .done []
      else
        match r.body with
        | .obj fields =>
          if (jLookup fields "errors").isSome || (jLookup fields "data").isNone
          then halt (.failed .vcsNoData) []
          else
            match jLookup fields "data" with
            | none => halt (.failed .vcsNoData) []
            | some data =>
              match json_path true data objectPath with
              | .error .indexError => halt (.failed .vcsInvalidObjectPath) []
              | .error e => halt (.failed e) []
              | .ok objects =>
                match json_path false objects ["pageInfo"] with
                | .error e => halt (.failed e) []
                | .ok .null => halt .done [objects]
                | .ok pageInfo =>
                  match objects with
                  | .obj ofields =>
                    let nodes :=
                      match jLookup ofields "nodes" with
                      | some v => v
                      | none => (jLookup ofields "edges").getD .null
                    match nodes with
                    | .null => halt (.failed .environmentError) []
                    | _ =>
                      match pyIter nodes with
                      | .error e => halt (.failed e) []
                      | .ok ns =>
                        match json_path false pageInfo ["hasNextPage"] with
                        | .error e => halt (.failed e) (ns)
                        | .ok hnp =>
                          if pyFalsy hnp then
                            { result := .done, items := ns, slept := s,
                              attempts := a, calls := 1, cursors := [cursor] }
                          else
                            match json_path false pageInfo ["endCursor"] with
                            | .error e => halt (.failed e) ns
                            | .ok ec =>
                              let cont := v4LoopF cfg objectPath fuel rest (some ec)
                              { result := cont.result, items := ns ++ cont.items,
                                slept := s + cont.slept,
                                attempts := a + cont.attempts,
                                calls := 1 + cont.calls,
                                cursors := cursor :: cont.cursors }
                  | _ => halt (.failed .attributeError) []
        | _ =>
          -- a non-dict body: `errors in res` / `data not in res` on a
          -- non-dict reproduces the Python membership semantics
          match r.body with
          | .arr items =>
            if items.any (fun it => match it with | .s v => v == "errors" | _ => false)
               || !(items.any (fun it => match it with | .s v => v == "data" | _ => false))
            then halt (.failed .vcsNoData) []
            else halt (.failed .typeError) []   -- res[data] on a list
          | .s v =>
            if strContains v "errors" || !(strContains v "data")
            then halt (.failed .vcsNoData) []
            else halt (.failed .typeError) []   -- res[data] on a str
          | _ => halt (.failed .typeError) []   -- `in` on a scalar

/-- The GitHubAPIv4.v4 generator on a full outcome script. -/
def v4Loop (cfg : ProviderCfg) (objectPath : List String)
    (script : List Outcome) (cursor : Option J) : V4Out :=
  v4LoopF cfg objectPath (script.length + 1) script cursor

/-- The fuel bound of the v4 loop is likewise irrelevant once it
exceeds the script length. -/
theorem v4LoopF_fuel (cfg : ProviderCfg) (path : List String) :
    ∀ (n : Nat) (script : List Outcome) (cursor : Option J),
      script.length < n →
      v4LoopF cfg path n script cursor = v4Loop cfg path script cursor := by
  intro n
  induction n using Nat.strong_induction_on with
  | _ n ih =>
    intro script cursor hlen
    rcases n with _ | n
    · exact absurd hlen (Nat.not_lt_zero _)
    · rw [v4Loop]
      rw [v4LoopF, v4LoopF]
      rcases h : requestAttempts cfg script 0 with ⟨r, rest, s, a⟩ | ⟨e, s, a⟩ | ⟨s, a⟩ <;>
        simp only [h]
      have hrest : rest.length < script.length :=
        requestAttempts_success_length cfg script 0 r rest s a h
      have e1 : v4LoopF cfg path n rest = v4LoopF cfg path script.length rest := by
        funext c2
        rw [ih n (Nat.lt_succ_self n) rest c2 (by omega),
          ih script.length hlen rest c2 hrest]
      rw [e1]

/-- One pooled credential: the raw secret it was constructed from
(None for the anonymous credential) and the outcome of its validity
probe (is_valid, which performs a live request). -/
structure PoolToken where
  secret : Option String
  valid : Bool
  deriving DecidableEq, Repr

/-- APIToken.__str__ (base.py 233-234): `self.token or ""`. -/
def tokenStr (secret : Option String) : String :=
  match secret with
  | none => ""
  | some s => s

/-- The token-merging body of VCSAPI.__init__ (base.py 277-286).
old_tokens is the set of identity strings of the current pool; the raw
secrets are deduplicated as a set and the ones equal to an existing
identity string are dropped (a raw None is never equal to any string);
each surviving secret is turned into a token which is kept only when
its validity probe passes; the pool tuple is extended in place.  An
empty collection is falsy and leaves the pool untouched.  Python set
iteration order is unspecified; the model fixes first-occurrence
order, which no counted or membership property depends on. -/
def addTokens (pool : List PoolToken) (raw : List (Option String))
    (probe : Option String → Bool) : List PoolToken :=
  if raw.isEmpty then pool
  else
    let old : List String := pool.map (fun t => tokenStr t.secret)
    let uniq : List (Option String) := raw.dedup
    let newSecrets := uniq.filter (fun sec =>
      match sec with
      | some str => !(old.any (fun o => o.data == str.data))
      | none => true)
    pool ++ (newSecrets.map (fun sec => ⟨sec, probe sec⟩)).filter
      (fun t => t.valid)

/-- Python min over a list of when values (base.py 325):
min() of an empty sequence raises ValueError; a single element is
returned without comparison; with two or more elements a null
among them raises TypeError (None is unorderable in Python 3), and
otherwise the integer minimum is taken. -/
def pyMinOpt : List (Option Int) → Except Exn (Option Int)
  | [] => .error .valueError
  | [w] => .ok w
  | l =>
    if l.contains none then .error .typeError
    else
      match (l.filterMap id).min? with
      | some m => .ok (some m)
      | none => .error .valueError

/-- The after-scan tail of one iterate_tokens pass (base.py 325-332):
next_res = min of the when values; sleep = next_res and
int(next_res - time.time()) + 1; sleep only when positive.  A null
next_res makes the `sleep > 0` comparison a TypeError.  Returns the
seconds slept in this pass. -/
def passAfterScan (whens : List (Option Int)) (now : Nat) : Except Exn Nat :=
  match pyMinOpt whens with
  | .error e => .error e
  | .ok none => .error .typeError
  | .ok (some m) =>
    let sleep : Int := if m = 0 then 0 else (m - (now : Int)) + 1
    .ok (if sleep > 0 then sleep.toNat else 0)

/-- Result of driving iterate_tokens until it yields its first token:
the when value identifying the yielded token and the seconds slept
before it, or the exception raised, or fuel exhaustion (the model
bound on loop passes). -/
inductive SelOut where
  | yielded (w : Option Int) (slept : Nat)
  | failed (e : Exn) (slept : Nat)
  | spinning (slept : Nat)
  deriving DecidableEq, Repr

/-- Add sleep seconds that happened before the given outcome. -/
def SelOut.addSleep (s : Nat) : SelOut → SelOut
  | .yielded w s0 => .yielded w (s + s0)
  | .failed e s0 => .failed e (s + s0)
  | .spinning s0 => .spinning (s + s0)

/-- VCSAPI.iterate_tokens (base.py 306-332) driven until its first
yield.  Tokens are abstracted by their when values; the list order
stands for the randomized sample order of one pass (the randomization
itself is not modelled; no claim depends on which ready token comes
first).  Each pass scans for a ready token and yields it; otherwise
the sleep of the pass is computed from the minimum when value and the
scan restarts from the top with the clock advanced by the sleep. -/
def iterateUntilReady (whens : List (Option Int)) (now : Nat) :
    Nat → SelOut
  | 0 => .spinning 0
  | fuel + 1 =>
    match whens.find? (fun w => pyReady w now) with
    | some w => .yielded w 0
    | none =>
      match passAfterScan whens now with
      | .error e => .failed e 0
      | .ok s => (iterateUntilReady whens (now + s) fuel).addSleep s

/-- The provider API classes of the package, with their Python
inheritance chains (github.py 108, 348; gitlab.py 71; bitbucket.py 13). -/
inductive ApiClass where
  | vcs | github | githubV4 | gitlab | bitbucket
  deriving DecidableEq, Repr, Fintype

/-- The method-resolution order of each class, most derived first. -/
def ancestors : ApiClass → List ApiClass
  | .vcs => [.vcs]
  | .github => [.github, .vcs]
  | .githubV4 => [.githubV4, .github, .vcs]
  | .gitlab => [.gitlab, .vcs]
  | .bitbucket => [.bitbucket, .vcs]

/-- isinstance(x, cls) for an object of class instCls. -/
def isInstanceOf (instCls target : ApiClass) : Bool :=
  (ancestors instCls).contains target

/-- A constructed API object: its exact class, its identity, and its
token pool. -/
structure ApiObj where
  cls : ApiClass
  oid : Nat
  tokens : List PoolToken
  deriving DecidableEq, Repr

/-- The class-attribute state driving the singleton pattern: the own
_instance attribute of every class (None both for the VCSAPI default
and for an unset subclass attribute: the only reader is the isinstance
test, which an inherited foreign instance fails exactly like None),
plus a counter for fresh object identities. -/
structure SingletonState where
  instAttr : ApiClass → Option ApiObj
  nextId : Nat

/-- Python attribute lookup of cls._instance along the MRO. -/
def lookupInstance (st : SingletonState) : List ApiClass → Option ApiObj
  | [] => none
  | c :: rest =>
    match st.instAttr c with
    | some o => some o
    | none => lookupInstance st rest

/-- The state before any construction. -/
def initialSingleton : SingletonState :=
  { instAttr := fun _ => none, nextId := 0 }

/-- VCSAPI.__new__ followed by the __init__ call it always performs
(base.py 270-286).  When the looked-up _instance is an instance of the
constructing class it is reused and __init__ re-runs on it, merging
the new secrets into its pool; otherwise a fresh object is allocated
(its class-level tokens attribute being the empty tuple) and
initialized, and becomes the _instance of exactly this class. -/
def constructAPI (st : SingletonState) (c : ApiClass)
    (raw : List (Option String)) (probe : Option String → Bool) :
    SingletonState × ApiObj :=
  match lookupInstance st (ancestors c) with
  | some o =>
    if isInstanceOf o.cls c then
      let o2 : ApiObj := { o with tokens := addTokens o.tokens raw probe }
      ({ st with instAttr := fun c2 => if c2 = c then some o2 else st.instAttr c2 },
       o2)
    else
      let o2 : ApiObj := { cls := c, oid := st.nextId,
                           tokens := addTokens [] raw probe }
      ({ instAttr := fun c2 => if c2 = c then some o2 else st.instAttr c2,
         nextId := st.nextId + 1 }, o2)
  | none =>
    let o2 : ApiObj := { cls := c, oid := st.nextId,
                         tokens := addTokens [] raw probe }
    ({ instAttr := fun c2 => if c2 = c then some o2 else st.instAttr c2,
       nextId := st.nextId + 1 }, o2)

/-- Well-formedness of the singleton state: the _instance attribute of
a class only ever holds an object of exactly that class (true of every
state reachable from initialSingleton, since __new__ allocates with
super().__new__(cls)). -/
def SingletonWF (st : SingletonState) : Prop :=
  ∀ c o, st.instAttr c = some o → o.cls = c

/-! Concrete provider scripts used by the per-claim theorems. -/

/-- A plain successful response. -/
def okResponse : Response := { status := 200, body := .arr [] }

/-- A transient 5xx response. -/
def serverErrorResponse : Response := { status := 500, body := .null }

/-- A GitHub throttling response. -/
def tooManyResponse : Response := { status := 403, body := .null }

/-- Provider behaviour: 5xx three times, then 200. -/
def c1Script : List Outcome :=
  [.response serverErrorResponse, .response serverErrorResponse,
   .response serverErrorResponse, .response okResponse]

/-- A page body of cnt consecutive integer items starting at off. -/
def pageItems (off cnt : Nat) : List J :=
  (List.range cnt).map (fun i => .i (off + i))

/-- A Link header announcing a next page. -/
def nextLink : String := "<https://api.github.com/x>; rel=\"next\""

/-- Offset-paginated provider behaviour: pages of 100, 100 and 37
items, the next-page link present on the first two only. -/
def c4Script : List Outcome :=
  [.response { status := 200, body := .arr (pageItems 0 100), link := nextLink },
   .response { status := 200, body := .arr (pageItems 100 100), link := nextLink },
   .response { status := 200, body := .arr (pageItems 200 37), link := "" }]

/-- A well-formed GraphQL response body for the repository-issues
query shape: data.repository.issues carrying nodes and pageInfo. -/
def gqlBody (nodes : List J) (endCur : String) (more : Bool) : J :=
  .obj [("data", .obj [("repository", .obj [("issues", .obj [
    ("nodes", .arr nodes),
    ("pageInfo", .obj [("endCursor", .s endCur), ("hasNextPage", .b more)])])])])]

/-- The object path of the repository-issues query. -/
def gqlPath : List String := ["repository", "issues"]

/-- The three node batches of the cursor-paginated script. -/
def v4Nodes1 : List J := [.s "a", .s "b"]

/-- Second node batch. -/
def v4Nodes2 : List J := [.s "c"]

/-- Third node batch. -/
def v4Nodes3 : List J := [.s "d", .s "e"]

/-- Cursor-paginated provider behaviour: hasNextPage true, true,
false over three responses. -/
def v4Script : List Outcome :=
  [.response { status := 200, body := gqlBody v4Nodes1 "c1" true },
   .response { status := 200, body := gqlBody v4Nodes2 "c2" true },
   .response { status := 200, body := gqlBody v4Nodes3 "c3" false }]

/-- A GraphQL body whose data does not contain the queried path. -/
def v4BadPathBody : J := .obj [("data", .obj [("somethingElse", .null)])]

/-- The validity probe that accepts every secret. -/
def probeAlwaysValid : Option String → Bool := fun _ => true

/-- Helper: the TokenNotReady signal never escapes the retry loop of
_request: no run of requestAttempts produces it as its failure. -/
theorem requestAttempts_no_tokenNotReady (cfg : ProviderCfg) :
    ∀ (script : List Outcome) (tc s a : Nat),
      requestAttempts cfg script tc ≠ .failure .tokenNotReady s a := by
  intro script
  induction script with
  | nil => intro tc s a h; simp [requestAttempts] at h
  | cons o rest ih =>
    intro tc s a h
    match o with
    | .tokenNotReady =>
      exact ih tc s a (by simpa [requestAttempts] using h)
    | .connectionError =>
      simp only [requestAttempts] at h
      split at h
      · simp at h
      · rcases heq : requestAttempts cfg rest (tc + 1) with r' | e' | p' <;>
          rw [heq] at h <;> simp [ReqResult.addCost] at h
        obtain ⟨he, -, -⟩ := h
        exact ih (tc + 1) _ _ (he ▸ heq)
    | .response r =>
      simp only [requestAttempts] at h
      split at h
      · simp at h
      split at h
      · split at h
        · simp at h
        · rcases heq : requestAttempts cfg rest (tc + 1) with r' | e' | p' <;>
            rw [heq] at h <;> simp [ReqResult.addCost] at h
          obtain ⟨he, -, -⟩ := h
          exact ih (tc + 1) _ _ (he ▸ heq)
      split at h
      · split at h
        · simp at h
        · rcases heq : requestAttempts cfg rest (tc + 1) with r' | e' | p' <;>
            rw [heq] at h <;> simp [ReqResult.addCost] at h
          obtain ⟨he, -, -⟩ := h
          exact ih (tc + 1) _ _ (he ▸ heq)
      split at h
      · simp at h
      · simp at h

/-- C1: in the retry loop of VCSAPI._request, every server-error
response (a status in the configured 5xx subset) increments the shared
timeout counter and sleeps exactly 2 to the (incremented) counter
seconds before retrying, every too-many-requests response increments
the same counter and sleeps exactly 2 to the (incremented counter
plus one) seconds, in both cases the call fails permanently with the
respective provider-down or abuse Timeout once the counter exceeds
retries_on_timeout = 5, and a provider returning 5xx three times then
200 succeeds with total backoff 2^1 + 2^2 + 2^3 seconds. -/
theorem C1_retry_backoff :
    (∀ st : Nat, st ∈ githubCfg.status_internal_error →
      ∀ (body : J) (lnk : String) (rest : List Outcome) (tc : Nat),
        requestAttempts githubCfg (.response ⟨st, body, lnk⟩ :: rest) tc =
          if tc + 1 > githubCfg.retries_on_timeout then
            .failure .timeoutVCSDown 0 1
          else
            (requestAttempts githubCfg rest (tc + 1)).addCost (2 ^ (tc + 1)) 1) ∧
    (∀ st : Nat, st ∈ githubCfg.status_too_many_requests →
      ∀ (body : J) (lnk : String) (rest : List Outcome) (tc : Nat),
        requestAttempts githubCfg (.response ⟨st, body, lnk⟩ :: rest) tc =
          if tc + 1 > githubCfg.retries_on_timeout then
            .failure .timeoutAbuse 0 1
          else
            (requestAttempts githubCfg rest (tc + 1)).addCost
              (2 ^ ((tc + 1) + 1)) 1) ∧
    githubCfg.retries_on_timeout = 5 ∧
    requestAttempts githubCfg c1Script 0 =
      .success okResponse [] (2 ^ 1 + 2 ^ 2 + 2 ^ 3) 4 := by
  refine ⟨?_, ?_, rfl, rfl⟩
  · intro st hst body lnk rest tc
    simp only [githubCfg, baseCfg, List.mem_cons, List.not_mem_nil,
      or_false] at hst
    rcases hst with h | h | h <;> subst h <;> rfl
  · intro st hst body lnk rest tc
    simp only [githubCfg, baseCfg, List.mem_cons, List.not_mem_nil,
      or_false] at hst
    subst hst
    rfl

/-- C1 witness: at concrete inputs, a first 500 sleeps 2^1 seconds and
a first 403 sleeps 2^2 seconds before retrying. -/
theorem C1_retry_backoff_witness :
    (500 ∈ githubCfg.status_internal_error) ∧
    (403 ∈ githubCfg.status_too_many_requests) ∧
    requestAttempts githubCfg [.response ⟨500, J.null, ""⟩] 0 =
      (requestAttempts githubCfg [] 1).addCost (2 ^ 1) 1 ∧
    requestAttempts githubCfg [.response ⟨403, J.null, ""⟩] 0 =
      (requestAttempts githubCfg [] 1).addCost (2 ^ 2) 1 := by
  refine ⟨by decide, by decide, ?_, ?_⟩
  · have h := C1_retry_backoff.1 500 (by decide) J.null "" [] 0
    simpa using h
  · have h := C1_retry_backoff.2.1 403 (by decide) J.null "" [] 0
    simpa using h

/-- C2: the claim says a response whose status is in the Empty set
(409) terminates the call successfully with an empty result; the code
instead raises: raise_for_status inside _request (base.py 412) fires
on the 4xx status 409 before the status_empty check of request
(base.py 351-352) can run, so that check is unreachable and the caller
sees an HTTPError.  This theorem evaluates the code at the failing
input, for both the plain and the paginated call. -/
theorem C2_empty_status_raises :
    (409 ∈ githubCfg.status_empty) ∧
    (∀ (body : J) (lnk : String) (rest : List Outcome) (tc : Nat),
      requestAttempts githubCfg (.response ⟨409, body, lnk⟩ :: rest) tc =
        .failure (.httpError 409) 0 1) ∧
    request githubCfg github_has_next_page false
        [.response ⟨409, J.null, ""⟩] =
      { result := .failed (.httpError 409), items := [], slept := 0,
        attempts := 1, calls := 1, pages := [] } ∧
    request githubCfg github_has_next_page true
        [.response ⟨409, J.null, ""⟩] =
      { result := .failed (.httpError 409), items := [], slept := 0,
        attempts := 1, calls := 1, pages := [init_pagination] } := by
  exact ⟨by decide, fun body lnk rest tc => rfl, rfl, rfl⟩

/-- C6: a response whose status is in the provider not-found set fails
immediately and permanently with RepoDoesNotExist: the failure is
independent of any further scripted outcomes and exactly one HTTP
attempt is made, with no sleeping, for both the GitHub set (404, 451)
and the GitLab set (404, 422, 451). -/
theorem C6_not_found_immediate :
    (∀ st : Nat, st ∈ githubCfg.status_not_found →
      ∀ (body : J) (lnk : String) (rest : List Outcome) (tc : Nat),
        requestAttempts githubCfg (.response ⟨st, body, lnk⟩ :: rest) tc =
          .failure (.repoDoesNotExist st) 0 1) ∧
    (∀ st : Nat, st ∈ gitlabCfg.status_not_found →
      ∀ (body : J) (lnk : String) (rest : List Outcome) (tc : Nat),
        requestAttempts gitlabCfg (.response ⟨st, body, lnk⟩ :: rest) tc =
          .failure (.repoDoesNotExist st) 0 1) := by
  constructor
  · intro st hst body lnk rest tc
    simp only [githubCfg, baseCfg, List.mem_cons, List.not_mem_nil,
      or_false] at hst
    rcases hst with h | h <;> subst h <;> rfl
  · intro st hst body lnk rest tc
    simp only [gitlabCfg, baseCfg, List.mem_cons, List.not_mem_nil,
      or_false] at hst
    rcases hst with h | h | h <;> subst h <;> rfl

/-- C6 witness: a 404 response fails at once with RepoDoesNotExist,
with zero retries (one attempt, nothing slept, the rest of the script
untouched). -/
theorem C6_not_found_immediate_witness :
    (404 ∈ githubCfg.status_not_found) ∧
    requestAttempts githubCfg
        [.response ⟨404, J.null, ""⟩, .response okResponse] 0 =
      .failure (.repoDoesNotExist 404) 0 1 := by
  exact ⟨by decide,
    C6_not_found_immediate.1 404 (by decide) J.null "" [.response okResponse] 0⟩

/-- C9: a response carrying rate-limit headers with remaining 0 and
the provider throttling status (403 for GitHub, 429 for GitLab) makes
_update_limits raise TokenNotReady (after recording the new window);
inside the retry loop of _request that signal only moves the loop on
to the next credential (no counter bump, no sleep, no attempt), and no
run of the loop ever surfaces TokenNotReady as its failure. -/
theorem C9_token_not_ready_consumed :
    (∀ (l : GHLimits) (url : String) (rt lim : Int),
      github_update_limits l 403
          { remaining := some 0, reset := some rt, limit := some lim } url =
        .ok (l.set (api_class url)
              { remaining := some 0, reset := some rt, limit := some lim },
            true)) ∧
    (∀ (w : Window) (rt lim : Int),
      gitlab_update_limits w 429
          { remaining := some 0, reset := some rt, limit := some lim } =
        .ok ({ remaining := some 0, reset := some rt, limit := some lim },
            true)) ∧
    (∀ (cfg : ProviderCfg) (rest : List Outcome) (tc : Nat),
      requestAttempts cfg (.tokenNotReady :: rest) tc =
        requestAttempts cfg rest tc) ∧
    (∀ (cfg : ProviderCfg) (script : List Outcome) (tc s a : Nat),
      requestAttempts cfg script tc ≠ .failure .tokenNotReady s a) := by
  exact ⟨fun l url rt lim => rfl, fun w rt lim => rfl,
    fun cfg rest tc => rfl,
    fun cfg script tc s a => requestAttempts_no_tokenNotReady cfg script tc s a⟩

/-- C3: for every stored limit state and clock value, ready is true
exactly when the stored remaining is not 0, or the stored reset time
is null or not later than the current time; equivalently ready is
false exactly when remaining is 0 and the reset time is strictly in
the future. -/
theorem C3_ready_iff (l : GHLimits) (url : String) (now : Nat) :
    (l.ready url now = true ↔
      ((l.get (api_class url)).remaining ≠ some 0 ∨
       (l.get (api_class url)).reset = none ∨
       ∃ v : Int, (l.get (api_class url)).reset = some v ∧ v ≤ (now : Int))) ∧
    (l.ready url now = false ↔
      ((l.get (api_class url)).remaining = some 0 ∧
       ∃ v : Int, (l.get (api_class url)).reset = some v ∧ (now : Int) < v)) := by
  unfold GHLimits.ready GHLimits.when pyReady
  by_cases hrem : (l.get (api_class url)).remaining = some 0
  · rcases hres : (l.get (api_class url)).reset with _ | v
    · simp [hrem, hres]
    · simp [hrem, hres]
      omega
  · simp [hrem]

/-- C4: offset pagination starts at page 1 with page size 100, yields
the items of each page in provider order, stops without issuing
another request as soon as a page is empty or the next-page signal is
false, otherwise bumps the page parameter by one and issues the next
call; on pages of 100, 100 and 37 items with the next-page link
missing on the third, exactly 3 requests are issued (at pages 1, 2, 3)
and exactly 237 items are yielded, in order. -/
theorem C4_offset_pagination :
    init_pagination = { page := 1, per_page := 100 } ∧
    (∀ (cfg : ProviderCfg) (f : String → Bool) (script : List Outcome),
      request cfg f true script = requestPaginated cfg f script init_pagination) ∧
    (∀ (its : List J) (lnk : String) (rest : List Outcome) (pp : PageParams),
      requestPaginated githubCfg github_has_next_page
          (.response ⟨200, .arr its, lnk⟩ :: rest) pp =
        if its.isEmpty || !github_has_next_page lnk then
          { result := .done, items := its, slept := 0, attempts := 1,
            calls := 1, pages := [pp] }
        else
          let cont := requestPaginated githubCfg github_has_next_page rest
            { pp with page := pp.page + 1 }
          { result := cont.result, items := its ++ cont.items,
            slept := cont.slept, attempts := 1 + cont.attempts,
            calls := 1 + cont.calls, pages := pp :: cont.pages }) ∧
    request githubCfg github_has_next_page true c4Script =
      { result := .done,
        items := pageItems 0 100 ++ (pageItems 100 100 ++ pageItems 200 37),
        slept := 0, attempts := 3, calls := 3,
        pages := [⟨1, 100⟩, ⟨2, 100⟩, ⟨3, 100⟩] } ∧
    (pageItems 0 100).length = 100 ∧ (pageItems 100 100).length = 100 ∧
    (pageItems 200 37).length = 37 ∧
    (request githubCfg github_has_next_page true c4Script).items.length = 237 := by
  refine ⟨rfl, fun cfg f script => rfl, ?_, rfl, rfl, rfl, rfl, rfl⟩
  intro its lnk rest pp
  have hreq : requestAttempts githubCfg
      (.response ⟨200, .arr its, lnk⟩ :: rest) 0 =
      .success ⟨200, .arr its, lnk⟩ rest 0 1 := rfl
  have hempty : (200 ∈ githubCfg.status_empty) = False := by
    simp [githubCfg, baseCfg]
  cases hi : its.isEmpty <;> cases hn : github_has_next_page lnk <;>
    simp [requestPaginated, requestPaginatedF, hreq, hempty, pyIter,
      pyFalsy, hi, hn]

/-- C5: the cursor pager yields all nodes of each response in response
order; after a page with hasNextPage true the next request is issued
with the cursor variable set to that page endCursor, after one with
hasNextPage false the stream stops with no further request; a body in
which the object path cannot be resolved fails at once with the fatal
invalid-object-path VCSError, with exactly one request issued whatever
outcomes follow; on hasNextPage true, true, false over three
responses, exactly 3 requests are issued and the three node batches
are yielded in order with cursors None, c1, c2. -/
theorem C5_cursor_pagination :
    (∀ (ns : List J) (cur lnk : String) (rest : List Outcome)
       (cursor : Option J),
      v4Loop githubCfg gqlPath
          (.response ⟨200, gqlBody ns cur true, lnk⟩ :: rest) cursor =
        (let cont := v4Loop githubCfg gqlPath rest (some (.s cur))
         { result := cont.result, items := ns ++ cont.items,
           slept := cont.slept, attempts := 1 + cont.attempts,
           calls := 1 + cont.calls, cursors := cursor :: cont.cursors })) ∧
    (∀ (ns : List J) (cur lnk : String) (rest : List Outcome)
       (cursor : Option J),
      v4Loop githubCfg gqlPath
          (.response ⟨200, gqlBody ns cur false, lnk⟩ :: rest) cursor =
        { result := .done, items := ns, slept := 0, attempts := 1,
          calls := 1, cursors := [cursor] }) ∧
    (∀ (rest : List Outcome) (cursor : Option J),
      v4Loop githubCfg gqlPath
          (.response ⟨200, v4BadPathBody, ""⟩ :: rest) cursor =
        { result := .failed .vcsInvalidObjectPath, items := [], slept := 0,
          attempts := 1, calls := 1, cursors := [cursor] }) ∧
    v4Loop githubCfg gqlPath v4Script none =
      { result := .done, items := v4Nodes1 ++ (v4Nodes2 ++ v4Nodes3),
        slept := 0, attempts := 3, calls := 3,
        cursors := [none, some (.s "c1"), some (.s "c2")] } := by
  refine ⟨?_, fun ns cur lnk rest cursor => rfl,
    fun rest cursor => rfl, rfl⟩
  intro ns cur lnk rest cursor
  have h : v4Loop githubCfg gqlPath
      (.response ⟨200, gqlBody ns cur true, lnk⟩ :: rest) cursor =
      (let cont := v4Loop githubCfg gqlPath rest (some (.s cur))
       { result := cont.result, items := ns ++ cont.items,
         slept := 0 + cont.slept, attempts := 1 + cont.attempts,
         calls := 1 + cont.calls, cursors := cursor :: cont.cursors }) := rfl
  rw [h]
  simp

/-- Helper: adding one string secret either is a no-op (identity
string already pooled), or appends one valid credential, or appends
nothing when the probe rejects it. -/
theorem addTokens_single (pool : List PoolToken) (s : String)
    (probe : Option String → Bool) :
    addTokens pool [some s] probe =
      if (pool.map (fun t => tokenStr t.secret)).any
          (fun o => o.data == s.data) then pool
      else if probe (some s) then pool ++ [⟨some s, true⟩]
      else pool := by
  by_cases hmem : (pool.map (fun t => tokenStr t.secret)).any
      (fun o => o.data == s.data)
  · simp [addTokens, hmem]
  · by_cases hp : probe (some s)
    · simp [addTokens, hmem, hp]
    · simp [addTokens, hmem, hp]

/-- C7 counterexample: adding the same secret twice is not always a
no-op.  The anonymous (null) secret has identity string the empty
string, but VCSAPI.__init__ subtracts the raw secrets from the set of
identity strings, and the raw None never equals a string; so a second
add of None grows the active credential count from 1 to 2. -/
theorem C7_null_secret_counterexample :
    tokenStr none = "" ∧
    (addTokens [] [none] probeAlwaysValid).map (fun t => tokenStr t.secret) =
      [""] ∧
    (addTokens [] [none] probeAlwaysValid).length = 1 ∧
    (addTokens (addTokens [] [none] probeAlwaysValid) [none]
        probeAlwaysValid).length = 2 := by
  exact ⟨rfl, rfl, rfl, rfl⟩

/-- C7 amended: credential adding is purely additive (the old pool is
a prefix of the new one) and, for string secrets, idempotent: a secret
whose identity string already belongs to the pool creates no new
credential, adding the same string secret twice equals adding it once,
and every credential that was not already pooled passed its validity
probe.  (A null secret is re-added each time, see the
counterexample.) -/
theorem C7_dedup_amended :
    (∀ (pool : List PoolToken) (raw : List (Option String))
       (probe : Option String → Bool),
      (addTokens pool raw probe).take pool.length = pool) ∧
    (∀ (pool : List PoolToken) (s : String) (probe : Option String → Bool),
      addTokens (addTokens pool [some s] probe) [some s] probe =
        addTokens pool [some s] probe) ∧
    (∀ (pool : List PoolToken) (raw : List (Option String))
       (probe : Option String → Bool),
      (addTokens pool raw probe).all (fun t => pool.contains t || t.valid)) ∧
    (∀ (pool : List PoolToken) (s : String) (probe : Option String → Bool),
      s ∈ pool.map (fun t => tokenStr t.secret) →
        addTokens pool [some s] probe = pool) := by
  have hany : ∀ (pool : List PoolToken) (s : String),
      s ∈ pool.map (fun t => tokenStr t.secret) →
      (pool.map (fun t => tokenStr t.secret)).any
        (fun o => o.data == s.data) = true := by
    intro pool s hs
    exact List.any_eq_true.mpr ⟨s, hs, by simp⟩
  refine ⟨?_, ?_, ?_, ?_⟩
  · intro pool raw probe
    by_cases h : raw.isEmpty
    · simp [addTokens, h]
    · simp [addTokens, h, List.take_left]
  · intro pool s probe
    by_cases hmem : (pool.map (fun t => tokenStr t.secret)).any
        (fun o => o.data == s.data)
    · simp [addTokens_single, hmem]
    · by_cases hp : probe (some s)
      · have h1 : addTokens pool [some s] probe = pool ++ [⟨some s, true⟩] := by
          simp [addTokens_single, hmem, hp]
        have h2 : ((pool ++ [(⟨some s, true⟩ : PoolToken)]).map
            (fun t => tokenStr t.secret)).any (fun o => o.data == s.data) = true := by
          apply hany
          simp [tokenStr]
        rw [h1, addTokens_single, if_pos h2]
      · have h1 : addTokens pool [some s] probe = pool := by
          simp [addTokens_single, hmem, hp]
        rw [h1, addTokens_single, if_neg hmem, if_neg hp]
  · intro pool raw probe
    have hcontains : ∀ t ∈ pool, (pool.contains t || t.valid) = true := by
      intro t ht
      simp only [Bool.or_eq_true]
      exact Or.inl (List.elem_iff.mpr ht)
    by_cases h : raw.isEmpty
    · simp only [addTokens, h, if_pos]
      exact List.all_eq_true.mpr hcontains
    · simp only [addTokens, h, Bool.false_eq_true, if_false]
      rw [List.all_append, Bool.and_eq_true]
      refine ⟨List.all_eq_true.mpr hcontains, List.all_eq_true.mpr ?_⟩
      intro t ht
      have := List.of_mem_filter ht
      simp_all
  · intro pool s probe hs
    rw [addTokens_single, if_pos (hany pool s hs)]

/-- C7 witness: at a concrete pool holding the secret t1, re-adding t1
is a no-op. -/
theorem C7_dedup_amended_witness :
    ("t1" : String) ∈ ([⟨some "t1", true⟩] : List PoolToken).map
      (fun t => tokenStr t.secret) ∧
    addTokens [⟨some "t1", true⟩] [some "t1"] probeAlwaysValid =
      [⟨some "t1", true⟩] := by
  exact ⟨by decide,
    C7_dedup_amended.2.2.2 [⟨some "t1", true⟩] "t1" probeAlwaysValid (by decide)⟩

/-- Helper: without a null when value, the Python min over the when
values is the integer minimum (ValueError stays for the empty pool). -/
theorem pyMinOpt_no_none (whens : List (Option Int))
    (h : whens.contains none = false) :
    pyMinOpt whens =
      match (whens.filterMap id).min? with
      | some m => .ok (some m)
      | none => .error .valueError := by
  match whens with
  | [] => rfl
  | [w] =>
    match w with
    | none => simp [List.contains] at h
    | some v => rfl
  | w1 :: w2 :: rest =>
    have e : pyMinOpt (w1 :: w2 :: rest) =
        if (w1 :: w2 :: rest).contains none then .error .typeError
        else
          match ((w1 :: w2 :: rest).filterMap id).min? with
          | some m => .ok (some m)
          | none => .error .valueError := rfl
    rw [e, h]
    simp

/-- C8 counterexample: with zero credentials, token selection fails
with a plain Python ValueError, raised by min() over the empty
sequence of when values (base.py 325); the code defines no dedicated
NoCredentials error (the exception type of the embedding enumerates
every exception the sources raise). -/
theorem C8_no_credentials_counterexample :
    passAfterScan [] 0 = .error .valueError ∧
    iterateUntilReady [] 0 1 = .failed .valueError 0 := by
  exact ⟨rfl, rfl⟩

/-- C8 amended: with an empty pool, selection fails by the ValueError
of min() on an empty sequence; with a nonempty pool in which no
credential is ready, the pass computes earliest as the minimum of the
when values, which is then strictly in the future, sleeps exactly
earliest - now + 1 seconds, and retries the scan from the top with the
clock advanced by the sleep. -/
theorem C8_selection_sleep :
    (∀ (now fuel : Nat),
      iterateUntilReady [] now (fuel + 1) = .failed .valueError 0) ∧
    (∀ (whens : List (Option Int)) (now fuel : Nat) (m : Int),
      whens.all (fun w => !pyReady w now) = true →
      (whens.filterMap id).min? = some m →
      (now : Int) < m ∧
      passAfterScan whens now = .ok ((m - now + 1).toNat) ∧
      iterateUntilReady whens now (fuel + 1) =
        (iterateUntilReady whens (now + (m - now + 1).toNat) fuel).addSleep
          ((m - now + 1).toNat)) := by
  constructor
  · intro now fuel
    rfl
  · intro whens now fuel m hall hmin
    have hnone : whens.contains none = false := by
      by_contra hc
      rw [Bool.not_eq_false] at hc
      have hmem : (none : Option Int) ∈ whens := List.elem_iff.mp hc
      have h2 := List.all_eq_true.mp hall none hmem
      simp [pyReady] at h2
    have hmmem : m ∈ whens.filterMap id := List.min?_mem (by
      intro a b
      exact min_choice a b) hmin
    have hsome : some m ∈ whens := by
      rcases List.mem_filterMap.mp hmmem with ⟨a, ha, hid⟩
      have ha2 : a = some m := hid
      exact ha2 ▸ ha
    have hnr := List.all_eq_true.mp hall (some m) hsome
    have hm : m ≠ 0 ∧ ¬(m ≤ (now : Int)) := by
      simpa [pyReady] using hnr
    have hlt : (now : Int) < m := by omega
    have hpym : pyMinOpt whens = .ok (some m) := by
      rw [pyMinOpt_no_none whens hnone, hmin]
    have hpass : passAfterScan whens now = .ok ((m - now + 1).toNat) := by
      rw [passAfterScan, hpym]
      simp only [if_neg hm.1]
      rw [if_pos (by omega)]
    have hfind : whens.find? (fun w => pyReady w now) = none := by
      apply List.find?_eq_none.mpr
      intro w hw
      have := List.all_eq_true.mp hall w hw
      simpa using this
    refine ⟨hlt, hpass, ?_⟩
    rw [iterateUntilReady, hfind, hpass]

/-- C8 witness: two credentials with reset times 10 and 20 at clock 3:
none ready, the pass sleeps 10 - 3 + 1 = 8 seconds and selection
retries at clock 11. -/
theorem C8_selection_sleep_witness :
    ([some 10, some 20] : List (Option Int)).all (fun w => !pyReady w 3) = true ∧
    (([some 10, some 20] : List (Option Int)).filterMap id).min? = some 10 ∧
    ((3 : Nat) : Int) < 10 ∧
    passAfterScan [some 10, some 20] 3 = .ok 8 ∧
    iterateUntilReady [some 10, some 20] 3 2 =
      (iterateUntilReady [some 10, some 20] 11 1).addSleep 8 := by
  have h := C8_selection_sleep.2 [some 10, some 20] 3 1 10 (by decide) (by decide)
  exact ⟨by decide, by decide, h.1, h.2.1, h.2.2⟩

/-- Helper: inside an MRO, the only listed ancestor that is itself an
instance of the class is the class. -/
theorem ancestors_instance_eq :
    ∀ a c : ApiClass, a ∈ ancestors c → isInstanceOf a c = true → a = c := by
  decide

/-- Helper: every class is an instance of itself. -/
theorem isInstanceOf_self (c : ApiClass) : isInstanceOf c c = true := by
  cases c <;> rfl

/-- Helper: the MRO starts with the class itself. -/
theorem ancestors_head (c : ApiClass) : ∃ t, ancestors c = c :: t := by
  cases c <;> exact ⟨_, rfl⟩

/-- Helper: a successful MRO attribute lookup found its value on one
of the listed classes. -/
theorem lookupInstance_mem (st : SingletonState) :
    ∀ (l : List ApiClass) (o : ApiObj),
      lookupInstance st l = some o → ∃ a ∈ l, st.instAttr a = some o := by
  intro l
  induction l with
  | nil => intro o h; simp [lookupInstance] at h
  | cons c rest ih =>
    intro o h
    rw [lookupInstance] at h
    rcases hc : st.instAttr c with _ | o2
    · rw [hc] at h
      rcases ih o h with ⟨a, ha, hao⟩
      exact ⟨a, List.mem_cons_of_mem c ha, hao⟩
    · rw [hc] at h
      obtain rfl : o2 = o := by injection h
      exact ⟨c, List.mem_cons_self c rest, hc⟩

/-- Helper: on a well-formed state, a construction returns an object
of the constructing class and stores it as that class _instance. -/
theorem constructAPI_post (st : SingletonState) (c : ApiClass)
    (raw : List (Option String)) (probe : Option String → Bool)
    (hwf : SingletonWF st) :
    (constructAPI st c raw probe).2.cls = c ∧
    (constructAPI st c raw probe).1.instAttr c =
      some (constructAPI st c raw probe).2 := by
  rcases hlk : lookupInstance st (ancestors c) with _ | o
  · simp [constructAPI, hlk]
  · rcases lookupInstance_mem st (ancestors c) o hlk with ⟨a, ha, hao⟩
    have hoa : o.cls = a := hwf a o hao
    by_cases hinst : isInstanceOf o.cls c = true
    · have hocls : o.cls = c := by
        rw [hoa] at hinst ⊢
        exact ancestors_instance_eq a c ha hinst
      constructor
      · simp [constructAPI, hlk, hinst, hocls, isInstanceOf_self]
      · simp [constructAPI, hlk, hinst]
    · constructor
      · simp [constructAPI, hlk, hinst]
      · simp [constructAPI, hlk, hinst]

/-- Helper: when the class already stores an instance of itself,
construction reuses it, re-running initialization on that object. -/
theorem constructAPI_reuse (st : SingletonState) (c : ApiClass) (o : ApiObj)
    (raw : List (Option String)) (probe : Option String → Bool)
    (h1 : st.instAttr c = some o) (h2 : o.cls = c) :
    constructAPI st c raw probe =
      ({ st with instAttr := fun c2 =>
          if c2 = c then some ({ o with tokens := addTokens o.tokens raw probe })
          else st.instAttr c2 },
       { o with tokens := addTokens o.tokens raw probe }) := by
  obtain ⟨t, ht⟩ := ancestors_head c
  have hlk : lookupInstance st (ancestors c) = some o := by
    rw [ht, lookupInstance, h1]
  have hinst : isInstanceOf o.cls c = true := by
    rw [h2]
    exact isInstanceOf_self c
  simp [constructAPI, hlk, hinst]

/-- C10: construction is a per-class singleton.  From the initial
state (which is well-formed), every construction preserves the
invariant that a class stores only instances of itself, and on any
well-formed state two successive constructions of the same API class,
with any argument lists, return the identical object (same object
identity) with initialization re-run on it, so the second call merges
its new tokens into the existing pool of the first object. -/
theorem C10_per_class_singleton :
    SingletonWF initialSingleton ∧
    (∀ (st : SingletonState) (c : ApiClass) (raw : List (Option String))
       (probe : Option String → Bool),
      SingletonWF st → SingletonWF (constructAPI st c raw probe).1) ∧
    (∀ (st : SingletonState) (c : ApiClass)
       (raw1 raw2 : List (Option String)) (p1 p2 : Option String → Bool),
      SingletonWF st →
      (constructAPI (constructAPI st c raw1 p1).1 c raw2 p2).2.oid =
          (constructAPI st c raw1 p1).2.oid ∧
      (constructAPI (constructAPI st c raw1 p1).1 c raw2 p2).2.tokens =
          addTokens (constructAPI st c raw1 p1).2.tokens raw2 p2) := by
  refine ⟨?_, ?_, ?_⟩
  · intro c o h
    simp [initialSingleton] at h
  · intro st c raw probe hwf c2 o2 h2
    rcases hlk : lookupInstance st (ancestors c) with _ | o
    · simp only [constructAPI, hlk] at h2
      by_cases hc : c2 = c
      · subst hc
        rw [if_pos rfl] at h2
        injection h2 with h3
        rw [← h3]
      · rw [if_neg hc] at h2
        exact hwf c2 o2 h2
    · rcases lookupInstance_mem st (ancestors c) o hlk with ⟨a, ha, hao⟩
      have hoa : o.cls = a := hwf a o hao
      by_cases hinst : isInstanceOf o.cls c = true
      · have hocls : o.cls = c := by
          rw [hoa] at hinst ⊢
          exact ancestors_instance_eq a c ha hinst
        simp only [constructAPI, hlk, hinst, if_true] at h2
        by_cases hc : c2 = c
        · subst hc
          rw [if_pos rfl] at h2
          injection h2 with h3
          rw [← h3]
          exact hocls
        · rw [if_neg hc] at h2
          exact hwf c2 o2 h2
      · simp only [constructAPI, hlk, hinst, if_false,
          Bool.false_eq_true] at h2
        by_cases hc : c2 = c
        · subst hc
          rw [if_pos rfl] at h2
          injection h2 with h3
          rw [← h3]
        · rw [if_neg hc] at h2
          exact hwf c2 o2 h2
  · intro st c raw1 raw2 p1 p2 hwf
    obtain ⟨hcls, hattr⟩ := constructAPI_post st c raw1 p1 hwf
    rw [constructAPI_reuse (constructAPI st c raw1 p1).1 c
      (constructAPI st c raw1 p1).2 raw2 p2 hattr hcls]
    exact ⟨rfl, rfl⟩

/-- C10 witness: constructing GitHubAPI twice from the initial state
returns the same object identity and merges the second token into the
pool of the first. -/
theorem C10_per_class_singleton_witness :
    (constructAPI (constructAPI initialSingleton .github [some "t1"]
        probeAlwaysValid).1 .github [some "t2"] probeAlwaysValid).2.oid =
      (constructAPI initialSingleton .github [some "t1"]
        probeAlwaysValid).2.oid ∧
    (constructAPI (constructAPI initialSingleton .github [some "t1"]
        probeAlwaysValid).1 .github [some "t2"] probeAlwaysValid).2.tokens =
      addTokens (constructAPI initialSingleton .github [some "t1"]
        probeAlwaysValid).2.tokens [some "t2"] probeAlwaysValid := by
  exact C10_per_class_singleton.2.2 initialSingleton .github [some "t1"]
    [some "t2"] probeAlwaysValid probeAlwaysValid
    (fun c o h => by simp [initialSingleton] at h)

end Strudel
